import Mathlib

/-!
Verification of the TranslationHub backend authentication and storage layer
(src/services/database.js, second revision with HMAC-signed sessions, and
src/services/server.js).  The JavaScript bodies are shallowly embedded as
Lean functions: the in-memory mock backend becomes explicit association-list
state passing, the production backend becomes functions over an explicit
database state together with an Except-valued connection to model the
try/catch structure, and the external primitives (Node crypto HMAC, bcrypt)
are modelled symbolically, using only the operations the code performs on
them (equality of digests, verification against a stored digest).
Stored procedures live in the database, not in the repository; they are
modelled from the spec and marked as such.
-/

/-- Configuration surface used by the session code: SESSION_SECRET may be
absent (process.env yields undefined, modelled as none) and
SESSION_EXPIRATION is the session time to live in seconds. -/
structure Env where
  sessionSecret : Option String
  sessionExpiration : Int
deriving DecidableEq, Repr

/-- Embeds the JS expression process.env.SESSION_SECRET || 'default-secret':
an absent variable and the empty string are both falsy, so both fall back to
the fixed string 'default-secret'. -/
def secretOrDefault (env : Env) : String :=
  match env.sessionSecret with
  | none => "default-secret"
  | some s => if s == "" then "default-secret" else s

/-- Models the HMAC-SHA256 primitive symbolically: the digest is a function
of the key and the message (the key length prefix keeps the pair
recoverable).  The code only ever compares digests for equality. -/
def hmacSha256 (key msg : String) : String :=
  "hmac-sha256:" ++ toString key.length ++ ":" ++ key ++ ":" ++ msg

/-- A credential value as persisted by a backend: either a plaintext
password stored as-is, or a bcrypt digest derived from a per-call salt and
the password.  The two are distinct values, reflecting that a bcrypt digest
string is never the plaintext itself. -/
inductive StoredCred where
  | plain (value : String)
  | bcrypt (salt : Nat) (value : String)
deriving DecidableEq, Repr

/-- Models bcrypt.compare: verification succeeds exactly when the candidate
matches the password the stored bcrypt digest was derived from; a stored
value that is not a bcrypt digest never verifies. -/
def bcryptCompare (candidate : String) (stored : StoredCred) : Bool :=
  match stored with
  | .plain _ => false
  | .bcrypt _ value => candidate == value

/-- A record held in the mock backend's in-memory mockUsers map
(database.js line 442): the literal is minus id, email, password plus and the
password field receives whatever value registerUser was called with. -/
structure MockUser where
  id : String
  email : String
  password : StoredCred
deriving DecidableEq, Repr

/-- JS Map.set semantics on an association list keyed by email: replace the
existing binding in place, or append a new one. -/
def mapSet (m : List (String × MockUser)) (key : String) (v : MockUser) :
    List (String × MockUser) :=
  match m with
  | [] => [(key, v)]
  | (k, w) :: rest =>
    if k == key then (key, v) :: rest else (k, w) :: mapSet rest key v

/-- JS Map.get semantics on the association list. -/
def mapGet (m : List (String × MockUser)) (key : String) : Option MockUser :=
  match m with
  | [] => none
  | (k, w) :: rest => if k == key then some w else mapGet rest key

/-- Shape of the value returned by the mock registerUser
(database.js lines 439-444): success flag plus the public user fields. -/
structure MockRegisterResult where
  success : Bool
  userId : String
  userEmail : String
deriving DecidableEq, Repr

/-- Mock registerUser (database.js lines 439-444): generates a user id
(passed in as the model of crypto.randomUUID), stores the record keyed by
email via Map.set - overwriting any existing binding - and returns success.
The stored password field receives the plaintext argument unchanged. -/
def registerUserMock (users : List (String × MockUser))
    (userId email password : String) :
    List (String × MockUser) × MockRegisterResult :=
  (mapSet users email { id := userId, email := email, password := StoredCred.plain password },
   { success := true, userId := userId, userEmail := email })

/-- Result of the mock loginUser: the JS object is either
success false / error, or success true with the user fields id, email,
session_id, signed_session_id (database.js lines 446-464). -/
inductive MockLoginResult where
  | failure (error : String)
  | success (id email sessionId signedSessionId : String)
deriving DecidableEq, Repr

/-- True exactly on the success constructor (models reading .success). -/
def MockLoginResult.isSuccess : MockLoginResult → Bool
  | .success _ _ _ _ => true
  | .failure _ => false

/-- Mock loginUser (database.js lines 446-464): looks the user up by email;
if absent returns the error 'User not found'; otherwise returns success with
a fresh raw session id (passed in as the model of crypto.randomUUID) and its
HMAC under the configured or default secret.  Note the password argument is
never consulted. -/
def loginUserMock (env : Env) (users : List (String × MockUser))
    (rawSessionId email password : String) : MockLoginResult :=
  match mapGet users email with
  | none => .failure ("User not found")
  | some user =>
    .success user.id user.email rawSessionId
      (hmacSha256 (secretOrDefault env) rawSessionId)

/-- Mock validateSession (database.js lines 510-517).  The first argument
models the JS value passed for sessionId: none models null (the value the
authenticate middleware always passes), for which Node's hmac.update throws
a TypeError, modelled as Except.error; for a string it returns whether the
presented signedSessionId equals HMAC(secret, sessionId).  No session store
is consulted and no expiry is checked. -/
def validateSessionMock (env : Env) (sessionId : Option String)
    (signedSessionId : String) : Except String Bool :=
  match sessionId with
  | none => .error ("TypeError: The data argument must be of type string")
  | some sid => .ok (signedSessionId == hmacSha256 (secretOrDefault env) sid)

/-- A row of the Users table as consumed by the production code: the
spLoginUser recordset exposes UserId, email, password_hash,
default_from_lang, default_to_lang. -/
structure UserRow where
  userId : String
  email : String
  passwordHash : StoredCred
  defaultFromLang : String
  defaultToLang : String
deriving DecidableEq, Repr

/-- A row of the Sessions table as written by spCreateSession
(database.js lines 637-642): user id, raw session id, signed session id,
absolute expiry timestamp in milliseconds. -/
structure SessionRow where
  userId : String
  sessionId : String
  signedSessionId : String
  expiresAt : Int
deriving DecidableEq, Repr

/-- The relational store backing the production body. -/
structure DbState where
  users : List UserRow
  sessions : List SessionRow
deriving DecidableEq, Repr

/-- Modelled from the spec: the stored procedure spLoginUser (executed by
the production loginUser but defined in the database, not the repository)
retrieves the user row for the given email, with the stored password hash
and default languages; an empty recordset means no such user. -/
def spLoginUser (db : DbState) (email : String) : List UserRow :=
  db.users.filter (fun u => u.email == email)

/-- Modelled from the spec: the stored procedure spCreateSession durably
records the session row before login returns. -/
def spCreateSession (db : DbState) (row : SessionRow) : DbState :=
  { db with sessions := row :: db.sessions }

/-- Modelled from the spec: the stored procedure spValidateSession returns
the session rows whose signed_session_id matches the argument and whose
expiry is still in the future (now < expires_at). -/
def spValidateSession (db : DbState) (now : Int) (signedSessionId : String) :
    List SessionRow :=
  db.sessions.filter
    (fun r => r.signedSessionId == signedSessionId && decide (now < r.expiresAt))

/-- Modelled from the spec: the stored procedure spRegisterUser fails with
DuplicateEmail when a user with the email is already present, and otherwise
persists a new user with empty default languages. -/
def spRegisterUser (db : DbState) (newUserId email : String)
    (passwordHash : StoredCred) : Except String DbState :=
  if db.users.any (fun u => u.email == email) then .error ("DuplicateEmail")
  else .ok { db with
    users := db.users ++
      [{ userId := newUserId, email := email, passwordHash := passwordHash,
         defaultFromLang := "", defaultToLang := "" }] }

/-- Structured result of the production register/save operations: the JS
object is success true / message or success false / error. -/
inductive OpResult where
  | success (message : String)
  | failure (error : String)
deriving DecidableEq, Repr

/-- Production registerUser (database.js lines 582-600): hashes the password
with bcrypt under a fresh salt (the salt parameter models bcrypt.genSalt),
then executes spRegisterUser; any thrown error - connection failure or
procedure failure - is caught and returned as a failure result, leaving the
store unchanged. -/
def registerUserProd (conn : Except String Unit) (db : DbState) (salt : Nat)
    (newUserId email password : String) : DbState × OpResult :=
  match conn with
  | .error msg => (db, .failure msg)
  | .ok _ =>
    match spRegisterUser db newUserId email (StoredCred.bcrypt salt password) with
    | .error msg => (db, .failure msg)
    | .ok db2 => (db2, .success ("Registration successful"))

/-- Result of the production loginUser (database.js lines 644-654): failure
carries the error string; success carries id, email, session_id,
signed_session_id, default_from_lang, default_to_lang. -/
inductive LoginResult where
  | failure (error : String)
  | success (id email sessionId signedSessionId defaultFromLang defaultToLang : String)
deriving DecidableEq, Repr

/-- Production loginUser (database.js lines 613-659): fetches the user row
via spLoginUser; an empty recordset or a failed bcrypt comparison both
return the generic failure 'Invalid email or password' without touching the
session store; on success it records a session row via spCreateSession with
expiry now + SESSION_EXPIRATION seconds and returns the signed session id.
rawSessionId models crypto.randomUUID and now models Date.now (ms). -/
def loginUserProd (env : Env) (conn : Except String Unit) (db : DbState)
    (rawSessionId : String) (now : Int) (email password : String) :
    DbState × LoginResult :=
  match conn with
  | .error msg => (db, .failure msg)
  | .ok _ =>
    match spLoginUser db email with
    | [] => (db, .failure ("Invalid email or password"))
    | user :: _ =>
      if bcryptCompare password user.passwordHash then
        (spCreateSession db
          { userId := user.userId, sessionId := rawSessionId,
            signedSessionId := hmacSha256 (secretOrDefault env) rawSessionId,
            expiresAt := now + env.sessionExpiration * 1000 },
         .success user.userId user.email rawSessionId
           (hmacSha256 (secretOrDefault env) rawSessionId)
           user.defaultFromLang user.defaultToLang)
      else (db, .failure ("Invalid email or password"))

/-- Production validateSession (database.js lines 782-801): the raw
sessionId argument is accepted but never used; the signed session id is
passed to spValidateSession and validity is a nonempty recordset.  Any
thrown error - the connection is modelled as Except, covering getPool and
the procedure call, both inside the same try - is caught and the function
returns false. -/
def validateSessionProd (conn : Except String DbState) (now : Int)
    (sessionId : Option String) (signedSessionId : String) : Bool :=
  match conn with
  | .error _ => false
  | .ok db => decide (0 < (spValidateSession db now signedSessionId).length)

/-- Outcome of the authenticate middleware (server.js lines 91-105): a 401
rejection for a missing/malformed header, a 401 rejection for an invalid
session, an escaped exception from the awaited validateSession call, or
authorization with the signed session id attached to the request. -/
inductive AuthOutcome where
  | rejectedNoToken
  | rejectedInvalid
  | errored (message : String)
  | authorized (signedSessionId : String)
deriving DecidableEq, Repr

/-- True exactly on the authorized outcome. -/
def AuthOutcome.isAuthorized : AuthOutcome → Bool
  | .authorized _ => true
  | _ => false

/-- Embeds the JS startsWith check as a prefix test on the character
list. -/
def strStartsWith (s p : String) : Bool :=
  p.data.isPrefixOf s.data

/-- Embeds the JS split(' ') on the character list: the string is cut at
every single space character. -/
def splitOnSpaceAux : List Char → List Char → List (List Char)
  | [], acc => [acc.reverse]
  | c :: rest, acc =>
    if c == ' ' then acc.reverse :: splitOnSpaceAux rest []
    else splitOnSpaceAux rest (c :: acc)

/-- Embeds authHeader.split(' ')[1] (server.js line 97): the element at
index 1 of the space-split header; the default is unreachable when the
header starts with the seven characters of the bearer marker. -/
def bearerToken (header : String) : String :=
  ⟨(splitOnSpaceAux header.data []).getD 1 []⟩

/-- The authenticate middleware wired to the mock backend
(server.js lines 91-105 with USE_MOCK_DB): a falsy or non-Bearer header is
rejected with NoToken; otherwise validateSession is invoked with null as the
raw session id and the extracted token as the signed session id; a thrown
error escapes the middleware (errored), false yields a 401 rejection, true
authorizes the request. -/
def authenticateMock (env : Env) (authHeader : Option String) : AuthOutcome :=
  match authHeader with
  | none => .rejectedNoToken
  | some header =>
    if strStartsWith header ("Bearer ") then
      match validateSessionMock env none (bearerToken header) with
      | .error msg => .errored msg
      | .ok true => .authorized (bearerToken header)
      | .ok false => .rejectedInvalid
    else .rejectedNoToken

/-- The line terminators that the JS regex dot does not match
(newline, carriage return, line separator, paragraph separator). -/
def isLineTerm (c : Char) : Bool :=
  c == '\n' || c == '\r' || c.toNat == 0x2028 || c.toNat == 0x2029

/-- The character class [A-Z] of the password regex: code points 65-90. -/
def isUpperAZ (c : Char) : Bool :=
  65 ≤ c.toNat && c.toNat ≤ 90

/-- The defined special-character set of the password regex:
the class [!@#$%^&*] (server.js line 64). -/
def isPasswordSpecial (c : Char) : Bool :=
  c == '!' || c == '@' || c == '#' || c == '$' || c == '%' || c == '^' ||
    c == '&' || c == '*'

/-- Semantics of the lookahead (?=.*C) at position 0 for a character class
C: some class member occurs, with only non-line-terminator characters
before it. -/
def dotStarFind (cls : Char → Bool) : List Char → Bool
  | [] => false
  | c :: rest => cls c || (!isLineTerm c && dotStarFind cls rest)

/-- Semantics of the lookahead (?=.{n,}) at position 0: the first n
characters exist and none is a line terminator. -/
def dotRepeat : Nat → List Char → Bool
  | 0, _ => true
  | _ + 1, [] => false
  | n + 1, c :: rest => !isLineTerm c && dotRepeat n rest

/-- validatePassword (server.js lines 63-66): the test of the regex
with three lookaheads at the start anchor - an uppercase letter, a special
character from the defined set, and at least eight leading characters. -/
def validatePassword (password : String) : Bool :=
  dotStarFind isUpperAZ password.data &&
    dotStarFind isPasswordSpecial password.data &&
    dotRepeat 8 password.data

/-- The JS regex whitespace class backslash-s: space, tab, line feed,
vertical tab, form feed, carriage return, and the Unicode space
characters. -/
def isJsWhitespace (c : Char) : Bool :=
  c == ' ' || c == '\t' || c == '\n' || c == '\r' ||
    c.toNat == 0xb || c.toNat == 0xc || c.toNat == 0xa0 ||
    c.toNat == 0x1680 || (0x2000 ≤ c.toNat && c.toNat ≤ 0x200a) ||
    c.toNat == 0x2028 || c.toNat == 0x2029 || c.toNat == 0x202f ||
    c.toNat == 0x205f || c.toNat == 0x3000 || c.toNat == 0xfeff

/-- The character class of the email regex segments: any character that is
neither whitespace nor the at sign. -/
def emailAtomChar (c : Char) : Bool :=
  !isJsWhitespace c && c != '@'

/-- Matches the final regex segment: one-or-more atom characters up to the
end anchor. -/
def emailTail (l : List Char) : Bool :=
  !l.isEmpty && l.all emailAtomChar

/-- Continuation of the domain after at least one atom character: either the
literal dot followed by the final segment, or another atom character of the
first segment (the regex backtracks over this choice; a dot is itself an
atom character). -/
def emailDomainRest : List Char → Bool
  | [] => false
  | c :: rest => (c == '.' && emailTail rest) || (emailAtomChar c && emailDomainRest rest)

/-- Matches the part after the at sign: one-or-more atom characters, a
literal dot, one-or-more atom characters, end anchor. -/
def emailDomain : List Char → Bool
  | [] => false
  | c :: rest => emailAtomChar c && emailDomainRest rest

/-- Continuation of the local part after at least one atom character: either
the literal at sign followed by the domain, or another atom character. -/
def emailAfterFirst : List Char → Bool
  | [] => false
  | c :: rest =>
    if c == '@' then emailDomain rest
    else emailAtomChar c && emailAfterFirst rest

/-- The anchored email pattern: one-or-more atom characters, the at sign,
then the domain. -/
def emailMatch : List Char → Bool
  | [] => false
  | c :: rest => emailAtomChar c && emailAfterFirst rest

/-- validateEmail (server.js lines 58-61): the test of the anchored
local-at-domain-dot-tld pattern. -/
def validateEmail (email : String) : Bool :=
  emailMatch email.data

/-- Response produced by the registration route: either one of the 400
validation errors emitted before any backend call, or the backend's result
with the status derived from its success flag. -/
inductive RegisterLayerResult where
  | validationError (status : Nat) (error : String)
  | backend (status : Nat) (r : MockRegisterResult)
deriving DecidableEq, Repr

/-- The register route wired to the mock backend (server.js lines 115-137):
missing fields, then email format, then password policy are checked before
registerUser; a failing check returns 400 and leaves the store untouched. -/
def registerRouteMock (users : List (String × MockUser))
    (newUserId email password : String) :
    List (String × MockUser) × RegisterLayerResult :=
  if email == "" || password == "" then
    (users, .validationError 400 ("Email and password are required"))
  else if !validateEmail email then
    (users, .validationError 400 ("Invalid email format"))
  else if !validatePassword password then
    (users, .validationError 400
      ("Password must be at least 8 characters long, contain at least one uppercase letter, and one special character"))
  else
    let r := registerUserMock users newUserId email password
    (r.1, .backend (if r.2.success then 200 else 400) r.2)

/-- The login route wired to the mock backend (server.js lines 144-152): the
body is forwarded to loginUser with no validation of any kind; the status is
200 on success and 401 on failure. -/
def loginRouteMock (env : Env) (users : List (String × MockUser))
    (rawSessionId email password : String) : Nat × MockLoginResult :=
  let r := loginUserMock env users rawSessionId email password
  ((if r.isSuccess then 200 else 401), r)

/-- Primitive JSON value kinds occurring in the backends' responses. -/
inductive LeafKind where
  | kBool
  | kStr
  | kDate
deriving DecidableEq, Repr

/-- Shape of one field of a response object: a primitive, or a nested object
of primitives (the deepest nesting the backends produce). -/
inductive FieldShape where
  | leaf (k : LeafKind)
  | nested (fields : List (String × LeafKind))
deriving DecidableEq, Repr

/-- Structural shape of a backend response: a bare primitive (validateSession
returns a boolean) or an object given by its ordered field list. -/
inductive Shape where
  | leafShape (k : LeafKind)
  | objShape (fields : List (String × FieldShape))
deriving DecidableEq, Repr

/-- Shape of the mock registerUser result (database.js lines 443):
success flag and a nested user object with id and email. -/
def mockRegisterShape : Shape :=
  .objShape [("success", .leaf .kBool),
             ("user", .nested [("id", .kStr), ("email", .kStr)])]

/-- Shape of the production registerUser success result
(database.js line 595): success flag and message. -/
def prodRegisterSuccessShape : Shape :=
  .objShape [("success", .leaf .kBool), ("message", .leaf .kStr)]

/-- Shape of every production catch-branch failure result: success flag and
error string. -/
def prodFailureShape : Shape :=
  .objShape [("success", .leaf .kBool), ("error", .leaf .kStr)]

/-- Shape of the mock loginUser failure result (database.js line 449). -/
def mockLoginFailureShape : Shape :=
  .objShape [("success", .leaf .kBool), ("error", .leaf .kStr)]

/-- Shape of the mock loginUser success result (database.js lines 455-463):
nested user object with id, email, session_id, signed_session_id. -/
def mockLoginSuccessShape : Shape :=
  .objShape [("success", .leaf .kBool),
             ("user", .nested [("id", .kStr), ("email", .kStr),
                               ("session_id", .kStr), ("signed_session_id", .kStr)])]

/-- Shape of the production loginUser success result
(database.js lines 644-654): the nested user object additionally carries
default_from_lang and default_to_lang. -/
def prodLoginSuccessShape : Shape :=
  .objShape [("success", .leaf .kBool),
             ("user", .nested [("id", .kStr), ("email", .kStr),
                               ("session_id", .kStr), ("signed_session_id", .kStr),
                               ("default_from_lang", .kStr), ("default_to_lang", .kStr)])]

/-- Shape of the mock logoutUser result (database.js line 507). -/
def mockLogoutShape : Shape :=
  .objShape [("success", .leaf .kBool), ("message", .leaf .kStr)]

/-- Shape of the production logoutUser success result
(database.js line 673). -/
def prodLogoutSuccessShape : Shape :=
  .objShape [("success", .leaf .kBool), ("message", .leaf .kStr)]

/-- Shape of the mock saveTextTranslation result (database.js lines
466-472): the raw translation record itself, with no success flag. -/
def mockSaveTextShape : Shape :=
  .objShape [("id", .leaf .kStr), ("userId", .leaf .kStr),
             ("fromLang", .leaf .kStr), ("toLang", .leaf .kStr),
             ("originalText", .leaf .kStr), ("translatedText", .leaf .kStr),
             ("createdAt", .leaf .kDate), ("type", .leaf .kStr)]

/-- Shape of the production saveTextTranslation success result
(database.js line 699). -/
def prodSaveTextSuccessShape : Shape :=
  .objShape [("success", .leaf .kBool), ("message", .leaf .kStr)]

/-- Shape of the mock saveVoiceTranslation result (database.js line 495):
success, message, and the whole translation record nested. -/
def mockSaveVoiceShape : Shape :=
  .objShape [("success", .leaf .kBool), ("message", .leaf .kStr),
             ("translation", .nested
               [("id", .kStr), ("userId", .kStr), ("fromLang", .kStr),
                ("toLang", .kStr), ("originalText", .kStr),
                ("translatedText", .kStr), ("createdAt", .kDate),
                ("type", .kStr)])]

/-- Shape of the production saveVoiceTranslation success result
(database.js line 744). -/
def prodSaveVoiceSuccessShape : Shape :=
  .objShape [("success", .leaf .kBool), ("message", .leaf .kStr)]

/-- Shape of the mock updateUserPreferences result (database.js line 521). -/
def mockUpdatePrefsShape : Shape :=
  .objShape [("success", .leaf .kBool), ("message", .leaf .kStr)]

/-- Shape of the production updateUserPreferences success result
(database.js line 830): it additionally nests the refreshed preferences. -/
def prodUpdatePrefsSuccessShape : Shape :=
  .objShape [("success", .leaf .kBool), ("message", .leaf .kStr),
             ("user", .nested [("default_from_lang", .kStr),
                               ("default_to_lang", .kStr)])]

/-- Shape of the mock getUserPreferences result (database.js line 527). -/
def mockGetPrefsShape : Shape :=
  .objShape [("default_from_lang", .leaf .kStr), ("default_to_lang", .leaf .kStr)]

/-- Shape of the production getUserPreferences success result: the first row
of the two-column select at database.js lines 856-860. -/
def prodGetPrefsShape : Shape :=
  .objShape [("default_from_lang", .leaf .kStr), ("default_to_lang", .leaf .kStr)]

/-- Shape of the mock validateSession return value: a bare boolean. -/
def mockValidateShape : Shape := .leafShape .kBool

/-- Shape of the production validateSession return value: a bare boolean. -/
def prodValidateShape : Shape := .leafShape .kBool

/-- C1: the mock validateSession accepts a signed session id that was never
issued by any login: it recomputes the HMAC of the presented raw id under
the (defaulted) secret and compares, consulting no session store and
checking no expiry, so a token forged by anyone who knows the fallback
secret validates.  This refutes the claim that validateSession reports
valid only when a matching server-side record exists and is unexpired. -/
theorem c1_counterexample_mock_accepts_forged :
    validateSessionMock { sessionSecret := none, sessionExpiration := 3600 }
      (some ("forged-raw-id")) (hmacSha256 ("default-secret") ("forged-raw-id"))
    = Except.ok true := rfl

/-- C1 (amended): for the production body, with the stored procedure
spValidateSession modelled from the spec, validation succeeds exactly when a
session row with matching signed session id exists whose expiry is still in
the future; and for a signed session id matching no stored row the result is
false whatever the connection outcome. -/
theorem c1_amended_prod_valid_iff_record_unexpired :
    (∀ (db : DbState) (now : Int) (sid : Option String) (s : String),
      validateSessionProd (Except.ok db) now sid s = true ↔
        ∃ r ∈ db.sessions, r.signedSessionId = s ∧ now < r.expiresAt)
    ∧ (∀ (conn : Except String DbState) (now : Int) (sid : Option String) (s : String),
      (∀ db, conn = Except.ok db → ∀ r ∈ db.sessions, r.signedSessionId ≠ s) →
      validateSessionProd conn now sid s = false) := by
  have hiff : ∀ (db : DbState) (now : Int) (sid : Option String) (s : String),
      validateSessionProd (Except.ok db) now sid s = true ↔
        ∃ r ∈ db.sessions, r.signedSessionId = s ∧ now < r.expiresAt := by
    intro db now sid s
    simp [validateSessionProd, spValidateSession, List.length_pos_iff_exists_mem,
      List.mem_filter]
  refine ⟨hiff, ?_⟩
  intro conn now sid s h
  match conn with
  | .error msg => rfl
  | .ok db =>
    rw [Bool.eq_false_iff]
    intro htrue
    obtain ⟨r, hr, hsig, _⟩ := (hiff db now sid s).mp htrue
    exact h db rfl r hr hsig

/-- C1 (witness): the amended theorem applied at a store holding one live
session and at a connection holding no row with the probed id. -/
theorem c1_amended_witness :
    (validateSessionProd
        (Except.ok
          { users := [],
            sessions := [{ userId := "u1", sessionId := "r1",
                           signedSessionId := "sig1", expiresAt := 1000 }] })
        5 none ("sig1") = true ↔
      ∃ r ∈ ({ users := [],
               sessions := [{ userId := "u1", sessionId := "r1",
                              signedSessionId := "sig1", expiresAt := 1000 }] } : DbState).sessions,
        r.signedSessionId = "sig1" ∧ (5 : Int) < r.expiresAt)
    ∧ validateSessionProd
        (Except.ok
          { users := [],
            sessions := [{ userId := "u1", sessionId := "r1",
                           signedSessionId := "sig1", expiresAt := 1000 }] })
        5 none ("never-issued") = false := by
  refine ⟨c1_amended_prod_valid_iff_record_unexpired.1 _ 5 none ("sig1"), ?_⟩
  exact c1_amended_prod_valid_iff_record_unexpired.2 _ 5 none ("never-issued")
    (by intro db hdb; injection hdb with h; subst h; decide)

/-- C2: the mock validateSession does not fail closed for every input: when
the raw session id argument is null - exactly the value the authenticate
middleware always passes - Node's hmac.update throws a TypeError instead of
the call returning invalid. -/
theorem c2_counterexample_mock_throws_on_null :
    validateSessionMock { sessionSecret := none, sessionExpiration := 3600 } none
      ("any-signed-token")
    = Except.error ("TypeError: The data argument must be of type string") := rfl

/-- C2 (amended): the production validateSession fails closed - every
failing lookup yields false, and a true result is only ever produced by a
successful lookup that found a matching unexpired session row; the mock
body, by contrast, throws (Except.error) whenever the raw session id is
null. -/
theorem c2_amended_prod_fails_closed :
    (∀ (msg : String) (now : Int) (sid : Option String) (s : String),
      validateSessionProd (Except.error msg) now sid s = false)
    ∧ (∀ (conn : Except String DbState) (now : Int) (sid : Option String) (s : String),
      validateSessionProd conn now sid s = true →
        ∃ db, conn = Except.ok db ∧
          ∃ r ∈ db.sessions, r.signedSessionId = s ∧ now < r.expiresAt)
    ∧ (∀ (env : Env) (s : String),
      validateSessionMock env none s
        = Except.error ("TypeError: The data argument must be of type string")) := by
  refine ⟨fun msg now sid s => rfl, ?_, fun env s => rfl⟩
  intro conn now sid s h
  match conn with
  | .error msg => simp [validateSessionProd] at h
  | .ok db =>
    refine ⟨db, rfl, ?_⟩
    simpa [validateSessionProd, spValidateSession, List.length_pos_iff_exists_mem,
      List.mem_filter] using h

/-- C2 (witness): the amended theorem applied at a failed connection and at
a successful validation over a concrete store. -/
theorem c2_amended_witness :
    validateSessionProd (Except.error ("connection refused")) 0 none ("tok") = false
    ∧ ∃ db, (Except.ok
          { users := [],
            sessions := [{ userId := "u2", sessionId := "r2",
                           signedSessionId := "sig2", expiresAt := 10 }] }
        : Except String DbState) = Except.ok db ∧
        ∃ r ∈ db.sessions, r.signedSessionId = "sig2" ∧ (5 : Int) < r.expiresAt := by
  refine ⟨c2_amended_prod_fails_closed.1 ("connection refused") 0 none ("tok"), ?_⟩
  exact c2_amended_prod_fails_closed.2.1 _ 5 none ("sig2") (by decide)

/-- C3: in the mock body the two failure causes are distinguishable: an
unregistered email yields the error 'User not found' (not the generic
message), and a registered email with a wrong password does not fail at all
- the password is never checked, so login succeeds.  This refutes the claim
for the mock body. -/
theorem c3_counterexample_mock_distinguishable :
    loginUserMock { sessionSecret := none, sessionExpiration := 3600 }
      [(("a@b.c"),
        { id := "u1", email := "a@b.c", password := StoredCred.plain ("Right1!") })]
      ("raw1") ("missing@x.y") ("whatever")
    = MockLoginResult.failure ("User not found")
    ∧ loginUserMock { sessionSecret := none, sessionExpiration := 3600 }
      [(("a@b.c"),
        { id := "u1", email := "a@b.c", password := StoredCred.plain ("Right1!") })]
      ("raw1") ("a@b.c") ("totally-wrong")
    = MockLoginResult.success ("u1") ("a@b.c") ("raw1")
        (hmacSha256 ("default-secret") ("raw1")) := ⟨rfl, rfl⟩

/-- C3 (amended): in the production body an unknown email and a known email
with a non-verifying password both return the identical generic failure
'Invalid email or password', so the caller cannot tell the causes apart and
email existence is not revealed. -/
theorem c3_amended_prod_generic_failure
    (env : Env) (db : DbState) (raw : String) (now : Int)
    (e1 p1 e2 p2 : String) (u : UserRow) (rest : List UserRow)
    (h1 : spLoginUser db e1 = [])
    (h2 : spLoginUser db e2 = u :: rest)
    (h3 : bcryptCompare p2 u.passwordHash = false) :
    loginUserProd env (Except.ok ()) db raw now e1 p1
      = (db, LoginResult.failure ("Invalid email or password"))
    ∧ loginUserProd env (Except.ok ()) db raw now e2 p2
      = (db, LoginResult.failure ("Invalid email or password")) := by
  constructor
  · simp [loginUserProd, h1]
  · simp [loginUserProd, h2, h3]

/-- C3 (witness): the amended theorem at a store with one registered user,
probed with an unknown email and with the known email plus wrong password. -/
theorem c3_amended_witness :
    loginUserProd { sessionSecret := none, sessionExpiration := 60 } (Except.ok ())
      { users := [{ userId := "u1", email := "a@b.c",
                    passwordHash := StoredCred.bcrypt 10 ("Right1!"),
                    defaultFromLang := "", defaultToLang := "" }],
        sessions := [] }
      ("raw7") 0 ("nobody@x.y") ("anything")
    = ({ users := [{ userId := "u1", email := "a@b.c",
                     passwordHash := StoredCred.bcrypt 10 ("Right1!"),
                     defaultFromLang := "", defaultToLang := "" }],
         sessions := [] }, LoginResult.failure ("Invalid email or password"))
    ∧ loginUserProd { sessionSecret := none, sessionExpiration := 60 } (Except.ok ())
      { users := [{ userId := "u1", email := "a@b.c",
                    passwordHash := StoredCred.bcrypt 10 ("Right1!"),
                    defaultFromLang := "", defaultToLang := "" }],
        sessions := [] }
      ("raw7") 0 ("a@b.c") ("wrong")
    = ({ users := [{ userId := "u1", email := "a@b.c",
                     passwordHash := StoredCred.bcrypt 10 ("Right1!"),
                     defaultFromLang := "", defaultToLang := "" }],
         sessions := [] }, LoginResult.failure ("Invalid email or password")) :=
  c3_amended_prod_generic_failure
    { sessionSecret := none, sessionExpiration := 60 }
    { users := [{ userId := "u1", email := "a@b.c",
                  passwordHash := StoredCred.bcrypt 10 ("Right1!"),
                  defaultFromLang := "", defaultToLang := "" }],
      sessions := [] }
    ("raw7") 0 ("nobody@x.y") ("anything") ("a@b.c") ("wrong")
    { userId := "u1", email := "a@b.c",
      passwordHash := StoredCred.bcrypt 10 ("Right1!"),
      defaultFromLang := "", defaultToLang := "" }
    [] (by decide) (by decide) (by decide)

/-- C4: in the mock body a login with a registered email and a wrong
password does not return a failure result at all - the password is never
verified and login succeeds - refuting the claim for the mock body (which,
moreover, has no session store whose unchangedness could be observed). -/
theorem c4_counterexample_mock_wrong_password_succeeds :
    loginUserMock { sessionSecret := some ("s3cret"), sessionExpiration := 120 }
      [(("dana@mail.io"),
        { id := "u42", email := "dana@mail.io", password := StoredCred.plain ("Correct1!") })]
      ("raw-42") ("dana@mail.io") ("wrong")
    = MockLoginResult.success ("u42") ("dana@mail.io") ("raw-42")
        (hmacSha256 ("s3cret") ("raw-42")) := rfl

/-- C4 (amended): in the production body a login whose password fails bcrypt
verification returns the generic failure and leaves the whole store - in
particular the session table - exactly as it was: spCreateSession is never
reached. -/
theorem c4_amended_prod_no_session_on_failure
    (env : Env) (db : DbState) (raw : String) (now : Int) (email pw : String)
    (u : UserRow) (rest : List UserRow)
    (h1 : spLoginUser db email = u :: rest)
    (h2 : bcryptCompare pw u.passwordHash = false) :
    loginUserProd env (Except.ok ()) db raw now email pw
      = (db, LoginResult.failure ("Invalid email or password")) := by
  simp [loginUserProd, h1, h2]

/-- C4 (witness): the amended theorem at a concrete store and a wrong
password. -/
theorem c4_amended_witness :
    loginUserProd { sessionSecret := some ("k1"), sessionExpiration := 30 } (Except.ok ())
      { users := [{ userId := "u5", email := "eve@mail.io",
                    passwordHash := StoredCred.bcrypt 10 ("Passw0rd!"),
                    defaultFromLang := "en", defaultToLang := "fr" }],
        sessions := [] }
      ("raw5") 99 ("eve@mail.io") ("not-the-password")
    = ({ users := [{ userId := "u5", email := "eve@mail.io",
                     passwordHash := StoredCred.bcrypt 10 ("Passw0rd!"),
                     defaultFromLang := "en", defaultToLang := "fr" }],
         sessions := [] }, LoginResult.failure ("Invalid email or password")) :=
  c4_amended_prod_no_session_on_failure
    { sessionSecret := some ("k1"), sessionExpiration := 30 }
    { users := [{ userId := "u5", email := "eve@mail.io",
                  passwordHash := StoredCred.bcrypt 10 ("Passw0rd!"),
                  defaultFromLang := "en", defaultToLang := "fr" }],
      sessions := [] }
    ("raw5") 99 ("eve@mail.io") ("not-the-password")
    { userId := "u5", email := "eve@mail.io",
      passwordHash := StoredCred.bcrypt 10 ("Passw0rd!"),
      defaultFromLang := "en", defaultToLang := "fr" }
    [] (by decide) (by decide)

/-- C5: the mock registerUser persists the plaintext password itself - the
stored record's password field is exactly the plaintext argument, not a
salted hash - refuting the claim for the mock body. -/
theorem c5_counterexample_mock_stores_plaintext :
    (registerUserMock [] ("u7") ("p@q.r") ("Topsecret1!")).1
    = [(("p@q.r"),
        { id := "u7", email := "p@q.r", password := StoredCred.plain ("Topsecret1!") })] := rfl

/-- C5 (amended): the production registerUser persists a salted bcrypt
digest of the password for the newly created user, and that stored
credential is never the plaintext of any password. -/
theorem c5_amended_prod_stores_salted_hash
    (db : DbState) (salt : Nat) (uid email pw : String)
    (hnew : db.users.any (fun u => u.email == email) = false) :
    ∃ db2, registerUserProd (Except.ok ()) db salt uid email pw
        = (db2, OpResult.success ("Registration successful"))
      ∧ ∃ u ∈ db2.users, u.email = email
          ∧ u.passwordHash = StoredCred.bcrypt salt pw
          ∧ ∀ q : String, u.passwordHash ≠ StoredCred.plain q := by
  refine ⟨{ db with
            users := db.users ++
              [{ userId := uid, email := email,
                 passwordHash := StoredCred.bcrypt salt pw,
                 defaultFromLang := "", defaultToLang := "" }] }, ?_, ?_⟩
  · simp [registerUserProd, spRegisterUser, hnew]
  · refine ⟨{ userId := uid, email := email,
              passwordHash := StoredCred.bcrypt salt pw,
              defaultFromLang := "", defaultToLang := "" }, ?_, rfl, rfl, ?_⟩
    · simp
    · intro q h
      exact StoredCred.noConfusion h

/-- C5 (witness): the amended theorem at an empty store. -/
theorem c5_amended_witness :
    ∃ db2, registerUserProd (Except.ok ()) { users := [], sessions := [] }
        10 ("u1") ("new@x.y") ("Fresh12!")
        = (db2, OpResult.success ("Registration successful"))
      ∧ ∃ u ∈ db2.users, u.email = "new@x.y"
          ∧ u.passwordHash = StoredCred.bcrypt 10 ("Fresh12!")
          ∧ ∀ q : String, u.passwordHash ≠ StoredCred.plain q :=
  c5_amended_prod_stores_salted_hash { users := [], sessions := [] }
    10 ("u1") ("new@x.y") ("Fresh12!") (by decide)

/-- C6: evaluation of the code at the failing configuration - no
SESSION_SECRET set (and likewise an empty one): the fallback silently
substitutes the fixed string 'default-secret', and both the mock and the
production login succeed and sign the issued session with that guessable
key instead of failing. -/
theorem c6_code_signs_with_default_secret :
    secretOrDefault { sessionSecret := none, sessionExpiration := 60 } = "default-secret"
    ∧ secretOrDefault { sessionSecret := some (""), sessionExpiration := 60 } = "default-secret"
    ∧ loginUserMock { sessionSecret := none, sessionExpiration := 60 }
        [(("e@f.g"),
          { id := "u9", email := "e@f.g", password := StoredCred.plain ("Pw123456!") })]
        ("raw9") ("e@f.g") ("Pw123456!")
      = MockLoginResult.success ("u9") ("e@f.g") ("raw9")
          (hmacSha256 ("default-secret") ("raw9"))
    ∧ (loginUserProd { sessionSecret := none, sessionExpiration := 60 } (Except.ok ())
        { users := [{ userId := "u1", email := "a@b.c",
                      passwordHash := StoredCred.bcrypt 10 ("Right1!"),
                      defaultFromLang := "", defaultToLang := "" }],
          sessions := [] }
        ("raw8") 0 ("a@b.c") ("Right1!")).2
      = LoginResult.success ("u1") ("a@b.c") ("raw8")
          (hmacSha256 ("default-secret") ("raw8")) ("") ("") :=
  ⟨rfl, rfl, rfl, rfl⟩

/-- C7: the mock and production bodies do not return structurally identical
shapes for every operation: the mock saveTextTranslation returns the raw
translation record with no success field while the production body returns
a success/message object (and neither the failure shape), and the
register, login-success, save-voice and update-preferences results differ
in field structure as well. -/
theorem c7_counterexample_shapes_differ :
    mockSaveTextShape ≠ prodSaveTextSuccessShape
    ∧ mockSaveTextShape ≠ prodFailureShape
    ∧ mockRegisterShape ≠ prodRegisterSuccessShape
    ∧ mockLoginSuccessShape ≠ prodLoginSuccessShape
    ∧ mockSaveVoiceShape ≠ prodSaveVoiceSuccessShape
    ∧ mockUpdatePrefsShape ≠ prodUpdatePrefsSuccessShape := by decide

/-- C7 (amended): the two bodies agree in shape exactly for validateSession
(both a bare boolean), logout success, getUserPreferences, and the login
failure object, while registerUser, loginUser success, saveTextTranslation,
saveVoiceTranslation and updateUserPreferences return structurally
different objects. -/
theorem c7_amended_shape_comparison :
    mockValidateShape = prodValidateShape
    ∧ mockLogoutShape = prodLogoutSuccessShape
    ∧ mockGetPrefsShape = prodGetPrefsShape
    ∧ mockLoginFailureShape = prodFailureShape
    ∧ mockRegisterShape ≠ prodRegisterSuccessShape
    ∧ mockLoginSuccessShape ≠ prodLoginSuccessShape
    ∧ mockSaveTextShape ≠ prodSaveTextSuccessShape
    ∧ mockSaveVoiceShape ≠ prodSaveVoiceSuccessShape
    ∧ mockUpdatePrefsShape ≠ prodUpdatePrefsSuccessShape := by decide

/-- C8: the mock registerUser called twice with the same email succeeds the
second time as well - no duplicate-email failure - and replaces the stored
record, changing the persisted credential, refuting the claim for the mock
body. -/
theorem c8_counterexample_mock_overwrites :
    (registerUserMock ((registerUserMock [] ("u1") ("dup@x.y") ("FirstPw1!")).1)
        ("u2") ("dup@x.y") ("SecondPw2!")).2.success = true
    ∧ (registerUserMock ((registerUserMock [] ("u1") ("dup@x.y") ("FirstPw1!")).1)
        ("u2") ("dup@x.y") ("SecondPw2!")).1
      = [(("dup@x.y"),
          { id := "u2", email := "dup@x.y", password := StoredCred.plain ("SecondPw2!") })] :=
  ⟨rfl, rfl⟩

/-- C8 (amended): the production registerUser on an email already present
fails with the DuplicateEmail error and returns the store unchanged, so the
existing user's stored hash is untouched. -/
theorem c8_amended_prod_duplicate_rejected
    (db : DbState) (salt : Nat) (uid email pw : String)
    (hdup : db.users.any (fun u => u.email == email) = true) :
    registerUserProd (Except.ok ()) db salt uid email pw
      = (db, OpResult.failure ("DuplicateEmail")) := by
  simp [registerUserProd, spRegisterUser, hdup]

/-- C8 (witness): the amended theorem at a store already holding the
email. -/
theorem c8_amended_witness :
    registerUserProd (Except.ok ())
      { users := [{ userId := "u1", email := "dup@x.y",
                    passwordHash := StoredCred.bcrypt 10 ("FirstPw1!"),
                    defaultFromLang := "", defaultToLang := "" }],
        sessions := [] }
      10 ("u2") ("dup@x.y") ("SecondPw2!")
    = ({ users := [{ userId := "u1", email := "dup@x.y",
                     passwordHash := StoredCred.bcrypt 10 ("FirstPw1!"),
                     defaultFromLang := "", defaultToLang := "" }],
         sessions := [] }, OpResult.failure ("DuplicateEmail")) :=
  c8_amended_prod_duplicate_rejected
    { users := [{ userId := "u1", email := "dup@x.y",
                  passwordHash := StoredCred.bcrypt 10 ("FirstPw1!"),
                  defaultFromLang := "", defaultToLang := "" }],
      sessions := [] }
    10 ("u2") ("dup@x.y") ("SecondPw2!") (by decide)

/-- For a character list free of line terminators, the counted-dot lookahead
holds exactly when the list is long enough. -/
theorem dotRepeat_eq_true_iff (n : Nat) (l : List Char)
    (h : ∀ c ∈ l, isLineTerm c = false) :
    dotRepeat n l = true ↔ n ≤ l.length := by
  induction n generalizing l with
  | zero => simp [dotRepeat]
  | succ n ih =>
    cases l with
    | nil => simp [dotRepeat]
    | cons c rest =>
      have hc := h c (List.mem_cons_self c rest)
      have hrest : ∀ x ∈ rest, isLineTerm x = false :=
        fun x hx => h x (List.mem_cons_of_mem c hx)
      simp [dotRepeat, hc, ih rest hrest, Nat.succ_le_succ_iff]

/-- For a character list free of line terminators, the dot-star-class
lookahead holds exactly when some member of the class occurs. -/
theorem dotStarFind_eq_true_iff (cls : Char → Bool) (l : List Char)
    (h : ∀ c ∈ l, isLineTerm c = false) :
    dotStarFind cls l = true ↔ ∃ c ∈ l, cls c = true := by
  induction l with
  | nil => simp [dotStarFind]
  | cons c rest ih =>
    have hc := h c (List.mem_cons_self c rest)
    have hrest : ∀ x ∈ rest, isLineTerm x = false :=
      fun x hx => h x (List.mem_cons_of_mem c hx)
    simp [dotStarFind, hc, ih hrest, List.mem_cons]

/-- C9: validatePassword rejects the password Short1! (it has only seven
characters, so the counted lookahead fails), while the claim asserts it is
accepted; and the password beginning with the eight characters before a line
feed followed by more letters has at least eight characters, an uppercase
letter and a symbol from the set, yet is rejected because the regex dot does
not cross line terminators - so the claimed acceptance condition is not
exactly the stated three-part policy either. -/
theorem c9_counterexample_policy_examples :
    validatePassword ("Short1!") = false
    ∧ validatePassword ("Aa!aaaa\naaaa") = false := ⟨rfl, rfl⟩

/-- C9 (amended): for passwords containing no line terminator, the validator
accepts exactly the passwords with at least eight characters, an uppercase
letter and a symbol from the defined set; short1 and Short1! (seven
characters) are rejected and Short12! is accepted; the policy is enforced by
the registration route before the backend is reached, while the login route
forwards every password - even one failing the policy - straight to
loginUser. -/
theorem c9_amended_password_policy :
    (∀ s : String, (∀ c ∈ s.data, isLineTerm c = false) →
      (validatePassword s = true ↔
        8 ≤ s.data.length
        ∧ (∃ c ∈ s.data, isUpperAZ c = true)
        ∧ (∃ c ∈ s.data, isPasswordSpecial c = true)))
    ∧ validatePassword ("short1") = false
    ∧ validatePassword ("Short1!") = false
    ∧ validatePassword ("Short12!") = true
    ∧ (∀ (users : List (String × MockUser)) (uid email pw : String),
      validateEmail email = true → email ≠ "" → pw ≠ "" →
      validatePassword pw = false →
      registerRouteMock users uid email pw
        = (users, RegisterLayerResult.validationError 400
            ("Password must be at least 8 characters long, contain at least one uppercase letter, and one special character")))
    ∧ (∀ (env : Env) (users : List (String × MockUser)) (raw email pw a b c d : String),
      validatePassword pw = false →
      loginUserMock env users raw email pw = MockLoginResult.success a b c d →
      loginRouteMock env users raw email pw = (200, MockLoginResult.success a b c d)) := by
  refine ⟨?_, rfl, rfl, rfl, ?_, ?_⟩
  · intro s hs
    simp only [validatePassword, Bool.and_eq_true,
      dotStarFind_eq_true_iff _ _ hs, dotRepeat_eq_true_iff _ _ hs]
    tauto
  · intro users uid email pw hem hne hpw hbad
    have h1 : (email == "") = false := by
      simp only [beq_eq_false_iff_ne]
      exact hne
    have h2 : (pw == "") = false := by
      simp only [beq_eq_false_iff_ne]
      exact hpw
    simp [registerRouteMock, h1, h2, hem, hbad]
  · intro env users raw email pw a b c d hbad hsucc
    simp [loginRouteMock, hsucc, MockLoginResult.isSuccess]

/-- C9 (witness): the amended theorem applied to a policy-satisfying
password, to the registration route with the rejected Short1!, and to the
login route with a policy-violating password that still logs in. -/
theorem c9_amended_witness :
    validatePassword ("Abcdefg!") = true
    ∧ registerRouteMock [] ("u1") ("a@b.c") ("Short1!")
      = ([], RegisterLayerResult.validationError 400
          ("Password must be at least 8 characters long, contain at least one uppercase letter, and one special character"))
    ∧ loginRouteMock { sessionSecret := none, sessionExpiration := 60 }
      [(("a@b.c"),
        { id := "u1", email := "a@b.c", password := StoredCred.plain ("Right1!") })]
      ("r9") ("a@b.c") ("bad")
      = (200, MockLoginResult.success ("u1") ("a@b.c") ("r9")
          (hmacSha256 ("default-secret") ("r9"))) := by
  refine ⟨?_, ?_, ?_⟩
  · exact (c9_amended_password_policy.1 ("Abcdefg!") (by decide)).mpr (by decide)
  · exact c9_amended_password_policy.2.2.2.2.1 [] ("u1") ("a@b.c") ("Short1!")
      (by decide) (by decide) (by decide) (by decide)
  · exact c9_amended_password_policy.2.2.2.2.2 _ _ ("r9") ("a@b.c") ("bad") _ _ _ _
      (by decide) (by decide)

/-- C10: with the mock backend selected, the authenticate gate never
authorizes any request: a missing or non-Bearer header is rejected, and any
Bearer header makes the gate call validateSession with null as the raw
session id, on which the mock's HMAC computation throws instead of
returning true - so even a token freshly issued by the mock login is never
accepted. -/
theorem c10_mock_gate_never_authorizes :
    (∀ (env : Env) (header : Option String),
      (authenticateMock env header).isAuthorized = false)
    ∧ (∀ (env : Env) (header : String),
      strStartsWith header ("Bearer ") = true →
      authenticateMock env (some header)
        = AuthOutcome.errored ("TypeError: The data argument must be of type string")) := by
  constructor
  · intro env header
    match header with
    | none => rfl
    | some h =>
      cases hs : strStartsWith h ("Bearer ") with
      | true => simp [authenticateMock, hs, validateSessionMock, AuthOutcome.isAuthorized]
      | false => simp [authenticateMock, hs, AuthOutcome.isAuthorized]
  · intro env header hs
    simp [authenticateMock, hs, validateSessionMock]

/-- C10 (witness): the theorem applied to a concrete Bearer header - for
instance one carrying a token the mock login would have just issued - and
to a request with no header. -/
theorem c10_witness :
    authenticateMock { sessionSecret := none, sessionExpiration := 60 }
      (some ("Bearer sometoken"))
      = AuthOutcome.errored ("TypeError: The data argument must be of type string")
    ∧ (authenticateMock { sessionSecret := none, sessionExpiration := 60 } none).isAuthorized
      = false :=
  ⟨c10_mock_gate_never_authorizes.2 _ ("Bearer sometoken") (by decide),
   c10_mock_gate_never_authorizes.1 _ none⟩
